import Mathlib

/-!
Shallow embedding of `jules-scratch/verification/verify_users_page.py`
(repository matthewp/lodge), a Playwright smoke-test script.

The script is a linear sequence of browser actions wrapped in
`try / except Exception / finally browser.close()`, all inside a
`with sync_playwright() as p:` block.  We model one execution as a
function of an environment that says, for each action, whether the
underlying Playwright call raises and with which Python exception.
The result of a run is the trace of performed effects, the resulting
file system, and the exception (if any) that propagates out of
`run_verification`.

Python semantics captured here:
  * `except Exception as e` catches exactly the exceptions whose class
    derives from `Exception`; `BaseException`-only exceptions such as
    `KeyboardInterrupt` and `SystemExit` are not caught.
  * the `finally` block runs whenever the `try` statement was entered,
    on normal, caught and uncaught paths alike;
  * `browser = p.chromium.launch(...)` and `page = browser.new_page()`
    sit before the `try`, so a failure there skips both the `except`
    and the `finally` clause;
  * leaving the `with sync_playwright()` block (normally or with an
    exception) stops the Playwright driver, which closes every browser
    it launched; the event `Event.playwrightStop` records this;
  * when an uncaught exception escapes the `__main__` call, the CPython
    process exit status depends on the exception: `SystemExit` carries
    its own exit code (`None` meaning 0), and every other uncaught
    exception makes the process exit 1; a normal return exits 0.
-/

namespace VerifyUsersPage

/-- A Python exception, abstracted to its message, whether its class
derives from `Exception` (as opposed to being a `BaseException`-only
class such as `KeyboardInterrupt` or `SystemExit`), and — for a
`SystemExit` — the exit code it carries.  `systemExit = none` means the
exception is not a `SystemExit`; `systemExit = some c` means it is a
`SystemExit` carrying code `c`, where `c = none` stands for Python's
`None` (a `SystemExit` is `BaseException`-only, so it has
`isException = false`). -/
structure PyExc where
  msg : String
  isException : Bool
  systemExit : Option (Option Nat)
  deriving DecidableEq

/-- The eight actions of the `try` body, in the order the source
performs them. -/
inductive Step
  | goto
  | fillUsername
  | fillPassword
  | clickSignIn
  | expectDashboard
  | clickUserMgmt
  | expectUsers
  | screenshot
  deriving DecidableEq

/-- Observable effects of one execution of the script. -/
inductive Event
  | launchBrowser
  | newPage
  | goto (url : String)
  | fill (label value : String)
  | click (role name : String)
  | expectText (selector text : String)
  | screenshotTaken (path : String)
  | printed (msg : String)
  | closeBrowser
  | playwrightStop
  deriving DecidableEq

/-- The hard-coded navigation target of `page.goto`. -/
def url : String := "http://localhost:1717"

/-- The hard-coded screenshot path of `page.screenshot(path=...)`. -/
def screenshotPath : String := "jules-scratch/verification/verification.png"

/-- The effect each `try`-body action performs, with the literal
arguments of the source. -/
def stepEvent : Step → Event
  | .goto => .goto url
  | .fillUsername => .fill "Username" "admin"
  | .fillPassword => .fill "Password" "admin"
  | .clickSignIn => .click "button" "SIGN IN"
  | .expectDashboard => .expectText "div.mb-8 > h2.title-flat" "Dashboard"
  | .clickUserMgmt => .click "link" "User Management"
  | .expectUsers => .expectText "div.mb-8 > h2.title-flat" "Users"
  | .screenshot => .screenshotTaken screenshotPath

/-- The order of the `try` body in the source: navigate, fill the two
credential fields, click SIGN IN, assert the Dashboard heading, click
the User Management link, assert the Users heading, take the
screenshot. -/
def flowOrder : List Step :=
  [.goto, .fillUsername, .fillPassword, .clickSignIn,
   .expectDashboard, .clickUserMgmt, .expectUsers, .screenshot]

/-- A file system: paths mapped to (abstract) file contents. -/
abbrev Fs := List (String × Nat)

/-- Writing a file shadows any existing entry at the same path, so the
map observed through `Fs.read` is updated in place: `page.screenshot`
overwrites an existing file silently, as any plain file write. -/
def Fs.write (fs : Fs) (path : String) (content : Nat) : Fs :=
  (path, content) :: fs

/-- Reading a file system at a path: the most recent write wins. -/
def Fs.read (fs : Fs) (path : String) : Option Nat :=
  (fs.find? (fun pc => pc.1 == path)).map Prod.snd

/-- One execution's environment: whether `p.chromium.launch` raises,
whether `browser.new_page` raises, and for each `try`-body action
whether the underlying call raises (and with what exception). -/
structure Env where
  launchFails : Option PyExc
  newPageFails : Option PyExc
  stepFails : Step → Option PyExc

/-- Result of one execution of `run_verification`: the effect trace,
the final file system, and the exception escaping the function (if
any). -/
structure RunResult where
  trace : List Event
  fs : Fs
  outcome : Option PyExc
  deriving DecidableEq

/-- Executing the `try` body: perform the listed actions in order until
one raises; `shot` is the abstract content of the screenshot this run
would take.  Returns the events performed, the file system, and the
exception raised (if any). -/
def runFlow (env : Env) (shot : Nat) : List Step → Fs → List Event × Fs × Option PyExc
  | [], fs => ([], fs, none)
  | s :: rest, fs =>
    match env.stepFails s with
    | some e => ([], fs, some e)
    | none =>
      let fs' := if s = Step.screenshot then Fs.write fs screenshotPath shot else fs
      let r := runFlow env shot rest fs'
      (stepEvent s :: r.1, r.2.1, r.2.2)

/-- The exception the `try` body would raise: that of the first failing
action in order, if any. -/
def firstFlowFailure (env : Env) : List Step → Option PyExc
  | [] => none
  | s :: rest =>
    match env.stepFails s with
    | some e => some e
    | none => firstFlowFailure env rest

/-- The whole of `run_verification`:
`with sync_playwright() as p:` around launch, `new_page`, then the
`try` body, `except Exception as e: print(f"An error occurred: {e}")`,
`finally: browser.close()`.  A launch or `new_page` failure skips the
`try` statement entirely; leaving the `with` block always stops
Playwright. -/
def run_verification (env : Env) (shot : Nat) (fs : Fs) : RunResult :=
  match env.launchFails with
  | some e => ⟨[Event.playwrightStop], fs, some e⟩
  | none =>
    match env.newPageFails with
    | some e => ⟨[Event.launchBrowser, Event.playwrightStop], fs, some e⟩
    | none =>
      let r := runFlow env shot flowOrder fs
      match r.2.2 with
      | none =>
          ⟨[Event.launchBrowser, Event.newPage] ++ r.1
             ++ [Event.closeBrowser, Event.playwrightStop],
           r.2.1, none⟩
      | some e =>
          if e.isException then
            ⟨[Event.launchBrowser, Event.newPage] ++ r.1
               ++ [Event.printed ("An error occurred: " ++ e.msg),
                   Event.closeBrowser, Event.playwrightStop],
             r.2.1, none⟩
          else
            ⟨[Event.launchBrowser, Event.newPage] ++ r.1
               ++ [Event.closeBrowser, Event.playwrightStop],
             r.2.1, some e⟩

/-- Exit status of a CPython process terminated by an uncaught
exception: a `SystemExit` carries its own exit code (`None` meaning 0);
every other uncaught exception exits 1. -/
def uncaughtExit (e : PyExc) : Nat :=
  match e.systemExit with
  | none => 1
  | some none => 0
  | some (some n) => n

/-- Exit status of the process running the script as `__main__`: 0 when
`run_verification` returns normally, the escaping exception's status
otherwise. -/
def exitCode (r : RunResult) : Nat :=
  match r.outcome with
  | none => 0
  | some e => uncaughtExit e

/-- Environment in which every Playwright call succeeds. -/
def envOk : Env := ⟨none, none, fun _ => none⟩

/-- Environment in which the Dashboard text assertion times out (a
Playwright `TimeoutError`, which is an `Exception` subclass), as when
login fails; all earlier calls succeed. -/
def envDash : Env :=
  ⟨none, none,
   fun s => if s = Step.expectDashboard
            then some ⟨"Timeout 5000ms exceeded.", true, none⟩ else none⟩

/-- Environment in which a `KeyboardInterrupt` (a `BaseException` that
does not derive from `Exception`) arrives during `page.goto`. -/
def envKI : Env :=
  ⟨none, none,
   fun s => if s = Step.goto
            then some ⟨"KeyboardInterrupt", false, none⟩ else none⟩

/-- Environment in which a `SystemExit` carrying code `None` (as raised
by a bare `sys.exit()`) arrives during `page.goto`; a `SystemExit` is
`BaseException`-only and its `None` code makes CPython exit 0. -/
def envSysExit : Env :=
  ⟨none, none,
   fun s => if s = Step.goto
            then some ⟨"", false, some none⟩ else none⟩

/-- Environment in which `p.chromium.launch` itself raises. -/
def envLaunchFail : Env :=
  ⟨some ⟨"Executable does not exist", true, none⟩, none, fun _ => none⟩

/-- Environment in which `browser.new_page` raises. -/
def envPageFail : Env :=
  ⟨none, some ⟨"Target closed", true, none⟩, fun _ => none⟩

/-- Transcribed from the spec's overview sentence, for comparison with
the source-derived trace: "(1) launch a browser instance, (2) open a
page, (3) navigate to a URL, (4) fill two form fields, (5) click a
button, (6) assert on visible text twice, (7) click a navigation link,
(8) save a screenshot, (9) close the browser" — i.e. both text
assertions before the navigation-link click.  (The final
`playwrightStop` is appended so that the comparison with the actual
trace is not decided by the modelling artifact of the `with`-block
exit.) -/
def claimedEventOrder : List Event :=
  [Event.launchBrowser, Event.newPage,
   Event.goto url,
   Event.fill "Username" "admin", Event.fill "Password" "admin",
   Event.click "button" "SIGN IN",
   Event.expectText "div.mb-8 > h2.title-flat" "Dashboard",
   Event.expectText "div.mb-8 > h2.title-flat" "Users",
   Event.click "link" "User Management",
   Event.screenshotTaken screenshotPath,
   Event.closeBrowser, Event.playwrightStop]

/-- Reading back a freshly written file returns the written content. -/
theorem Fs.read_write (fs : Fs) (p : String) (c : Nat) :
    Fs.read (Fs.write fs p c) p = some c := by
  simp [Fs.read, Fs.write]

/-- Writing one path leaves every other path unchanged. -/
theorem Fs.read_write_ne (fs : Fs) (p q : String) (c : Nat) (h : q ≠ p) :
    Fs.read (Fs.write fs p c) q = Fs.read fs q := by
  simp only [Fs.read, Fs.write]
  rw [List.find?_cons_of_neg]
  simp only [beq_iff_eq]
  exact fun hq => h hq.symm

/-- The exception escaping the `try` body is that of the first failing
action, independently of the file system and the screenshot content. -/
theorem runFlow_outcome (env : Env) (shot : Nat) :
    ∀ (l : List Step) (fs : Fs),
      (runFlow env shot l fs).2.2 = firstFlowFailure env l := by
  intro l
  induction l with
  | nil => intro fs; simp [runFlow, firstFlowFailure]
  | cons s rest ih =>
    intro fs
    simp only [runFlow, firstFlowFailure]
    cases env.stepFails s with
    | none => simp [ih]
    | some e => simp

/-- The `try` body never prints: `print` appears only in the `except`
clause. -/
theorem runFlow_no_printed (env : Env) (shot : Nat) :
    ∀ (l : List Step) (fs : Fs) (m : String),
      Event.printed m ∉ (runFlow env shot l fs).1 := by
  intro l
  induction l with
  | nil => intro fs m; simp [runFlow]
  | cons s rest ih =>
    intro fs m
    simp only [runFlow]
    cases env.stepFails s with
    | none =>
      simp only [List.mem_cons, not_or]
      refine ⟨?_, ih _ _⟩
      cases s <;> simp [stepEvent]
    | some e => simp

/-- Leaving the `with sync_playwright()` block always stops the
Playwright driver, on every path out of `run_verification`. -/
theorem playwrightStop_mem (env : Env) (shot : Nat) (fs : Fs) :
    Event.playwrightStop ∈ (run_verification env shot fs).trace := by
  unfold run_verification
  cases env.launchFails with
  | some e => simp
  | none =>
    cases env.newPageFails with
    | some e => simp
    | none =>
      cases h : (runFlow env shot flowOrder fs).2.2 with
      | none => simp [h]
      | some e =>
        by_cases he : e.isException <;> simp [h, he]

/-- When no `try`-body action fails, the body performs every action in
order, writes the screenshot, and raises nothing. -/
theorem runFlow_all_ok (env : Env) (shot : Nat) (fs : Fs)
    (hs : ∀ s, env.stepFails s = none) :
    runFlow env shot flowOrder fs =
      (flowOrder.map stepEvent, Fs.write fs screenshotPath shot, none) := by
  simp [flowOrder, runFlow, hs, stepEvent]

/-- The `try` body's trace is exactly the actions before the first
failing one, in source order. -/
theorem runFlow_trace (env : Env) (shot : Nat) :
    ∀ (l : List Step) (fs : Fs),
      (runFlow env shot l fs).1 =
        (l.takeWhile (fun s => (env.stepFails s).isNone)).map stepEvent := by
  intro l
  induction l with
  | nil => intro fs; simp [runFlow]
  | cons s rest ih =>
    intro fs
    simp only [runFlow, List.takeWhile_cons]
    cases hx : env.stepFails s with
    | some e => simp
    | none => simp [ih]

/-- If the `try` body raises nothing, every one of its actions
succeeded. -/
theorem firstFlowFailure_none (env : Env) :
    ∀ l : List Step, firstFlowFailure env l = none →
      ∀ s ∈ l, env.stepFails s = none := by
  intro l
  induction l with
  | nil => simp
  | cons a rest ih =>
    intro hnone s hs
    rw [firstFlowFailure] at hnone
    cases hx : env.stepFails a with
    | some e => rw [hx] at hnone; exact absurd hnone (by simp)
    | none =>
      rw [hx] at hnone
      rcases List.mem_cons.mp hs with rfl | hs'
      · exact hx
      · exact ih hnone s hs'

/-- The screenshot event can appear in the `try` body's trace only when
every action of the flow succeeded: the screenshot is the last action,
so a failure anywhere truncates the trace before it. -/
theorem screenshot_mem_flow (env : Env) (shot : Nat) (fs : Fs)
    (h : Event.screenshotTaken screenshotPath ∈ (runFlow env shot flowOrder fs).1) :
    ∀ s, env.stepFails s = none := by
  rw [runFlow_trace] at h
  cases h1 : (env.stepFails Step.goto).isNone with
  | false => simp [flowOrder, List.takeWhile_cons, h1, stepEvent] at h
  | true =>
  cases h2 : (env.stepFails Step.fillUsername).isNone with
  | false => simp [flowOrder, List.takeWhile_cons, h1, h2, stepEvent] at h
  | true =>
  cases h3 : (env.stepFails Step.fillPassword).isNone with
  | false => simp [flowOrder, List.takeWhile_cons, h1, h2, h3, stepEvent] at h
  | true =>
  cases h4 : (env.stepFails Step.clickSignIn).isNone with
  | false => simp [flowOrder, List.takeWhile_cons, h1, h2, h3, h4, stepEvent] at h
  | true =>
  cases h5 : (env.stepFails Step.expectDashboard).isNone with
  | false => simp [flowOrder, List.takeWhile_cons, h1, h2, h3, h4, h5, stepEvent] at h
  | true =>
  cases h6 : (env.stepFails Step.clickUserMgmt).isNone with
  | false => simp [flowOrder, List.takeWhile_cons, h1, h2, h3, h4, h5, h6, stepEvent] at h
  | true =>
  cases h7 : (env.stepFails Step.expectUsers).isNone with
  | false => simp [flowOrder, List.takeWhile_cons, h1, h2, h3, h4, h5, h6, h7, stepEvent] at h
  | true =>
  cases h8 : (env.stepFails Step.screenshot).isNone with
  | false => simp [flowOrder, List.takeWhile_cons, h1, h2, h3, h4, h5, h6, h7, h8, stepEvent] at h
  | true =>
    intro s
    cases s
    · exact Option.isNone_iff_eq_none.mp h1
    · exact Option.isNone_iff_eq_none.mp h2
    · exact Option.isNone_iff_eq_none.mp h3
    · exact Option.isNone_iff_eq_none.mp h4
    · exact Option.isNone_iff_eq_none.mp h5
    · exact Option.isNone_iff_eq_none.mp h6
    · exact Option.isNone_iff_eq_none.mp h7
    · exact Option.isNone_iff_eq_none.mp h8

/-- C1, counterexample: the claimed order — both visible-text
assertions before the navigation-link click — is not the order the
script performs; on a fully successful run the actual trace differs
from the claimed one. -/
theorem c1_order_counterexample :
    (run_verification envOk 0 []).trace ≠ claimedEventOrder := by decide

/-- C1 (amended): on a run in which every call succeeds, the script
performs exactly, in order: launch a browser, open a page, navigate to
the URL, fill the two form fields, click the SIGN IN button, assert
the Dashboard heading text, click the User Management navigation link,
assert the Users heading text, save the screenshot, and close the
browser — i.e. the second text assertion comes after the link click,
not before it. -/
theorem c1_order_amended (env : Env) (shot : Nat) (fs : Fs)
    (hl : env.launchFails = none) (hn : env.newPageFails = none)
    (hs : ∀ s, env.stepFails s = none) :
    (run_verification env shot fs).trace =
      [Event.launchBrowser, Event.newPage,
       Event.goto url,
       Event.fill "Username" "admin", Event.fill "Password" "admin",
       Event.click "button" "SIGN IN",
       Event.expectText "div.mb-8 > h2.title-flat" "Dashboard",
       Event.click "link" "User Management",
       Event.expectText "div.mb-8 > h2.title-flat" "Users",
       Event.screenshotTaken screenshotPath,
       Event.closeBrowser, Event.playwrightStop] := by
  simp only [run_verification, hl, hn, runFlow_all_ok env shot fs hs]
  simp [flowOrder, stepEvent]

/-- C1, witness: the amended order at the all-success environment. -/
theorem c1_order_witness :
    (run_verification envOk 0 []).trace =
      [Event.launchBrowser, Event.newPage,
       Event.goto url,
       Event.fill "Username" "admin", Event.fill "Password" "admin",
       Event.click "button" "SIGN IN",
       Event.expectText "div.mb-8 > h2.title-flat" "Dashboard",
       Event.click "link" "User Management",
       Event.expectText "div.mb-8 > h2.title-flat" "Users",
       Event.screenshotTaken screenshotPath,
       Event.closeBrowser, Event.playwrightStop] :=
  c1_order_amended envOk 0 [] rfl rfl (fun _ => rfl)

/-- C5: when the server behaves and the credentials are accepted
(every call of the flow succeeds), the script writes the screenshot at
the fixed path `jules-scratch/verification/verification.png`. -/
theorem c5_screenshot_on_success (env : Env) (shot : Nat) (fs : Fs)
    (hl : env.launchFails = none) (hn : env.newPageFails = none)
    (hs : ∀ s, env.stepFails s = none) :
    Fs.read (run_verification env shot fs).fs screenshotPath = some shot ∧
    Event.screenshotTaken screenshotPath ∈ (run_verification env shot fs).trace := by
  constructor
  · simp only [run_verification, hl, hn, runFlow_all_ok env shot fs hs]
    simp [Fs.read_write]
  · simp only [run_verification, hl, hn, runFlow_all_ok env shot fs hs]
    simp [flowOrder, stepEvent]

/-- C5, witness: the all-success environment produces the screenshot
file. -/
theorem c5_screenshot_witness :
    Fs.read (run_verification envOk 7 []).fs screenshotPath = some 7 ∧
    Event.screenshotTaken screenshotPath ∈ (run_verification envOk 7 []).trace :=
  c5_screenshot_on_success envOk 7 [] rfl rfl (fun _ => rfl)

/-- C2: any exception of an `Exception`-derived class (element not
found, assertion failure, navigation timeout all are) raised during
the `try` body is caught by the single `except Exception` boundary:
its message is printed, it is not re-raised, and execution falls
through to `browser.close()` — the trace ends with the printed message
followed by the browser shutdown. -/
theorem c2_catch_and_swallow (env : Env) (shot : Nat) (fs : Fs) (e : PyExc)
    (hl : env.launchFails = none) (hn : env.newPageFails = none)
    (hf : firstFlowFailure env flowOrder = some e)
    (he : e.isException = true) :
    (run_verification env shot fs).outcome = none ∧
    ∃ tr, (run_verification env shot fs).trace =
      tr ++ [Event.printed ("An error occurred: " ++ e.msg),
             Event.closeBrowser, Event.playwrightStop] := by
  have hr : (runFlow env shot flowOrder fs).2.2 = some e :=
    (runFlow_outcome env shot flowOrder fs).trans hf
  constructor
  · simp [run_verification, hl, hn, hr, he]
  · refine ⟨Event.launchBrowser :: Event.newPage ::
      (runFlow env shot flowOrder fs).1, ?_⟩
    simp [run_verification, hl, hn, hr, he]

/-- C2, witness: the dashboard-assertion timeout is caught, printed and
swallowed. -/
theorem c2_catch_witness :
    (run_verification envDash 0 []).outcome = none ∧
    ∃ tr, (run_verification envDash 0 []).trace =
      tr ++ [Event.printed ("An error occurred: " ++ "Timeout 5000ms exceeded."),
             Event.closeBrowser, Event.playwrightStop] :=
  c2_catch_and_swallow envDash 0 [] ⟨"Timeout 5000ms exceeded.", true, none⟩
    rfl rfl rfl rfl

/-- C3, counterexample: the claim says every execution exits 0
regardless of how a step of the flow fails, but when `page.goto` is
interrupted by a `KeyboardInterrupt` (a `BaseException` not derived
from `Exception`) the exception escapes `run_verification` and the
process exit status is nonzero. -/
theorem c3_exit_counterexample : exitCode (run_verification envKI 0 []) ≠ 0 := by
  decide

/-- C3 (amended): if browser launch and page creation succeed and any
exception raised during the verification flow is an instance of
`Exception`, the process terminates with exit status 0, whether the
flow succeeded or failed. -/
theorem c3_exit_zero_amended (env : Env) (shot : Nat) (fs : Fs)
    (hl : env.launchFails = none) (hn : env.newPageFails = none)
    (he : ∀ e, firstFlowFailure env flowOrder = some e → e.isException = true) :
    exitCode (run_verification env shot fs) = 0 := by
  have hr := runFlow_outcome env shot flowOrder fs
  cases hf : firstFlowFailure env flowOrder with
  | none => simp [exitCode, run_verification, hl, hn, hr.trans hf]
  | some e => simp [exitCode, run_verification, hl, hn, hr.trans hf, he e hf]

/-- C3, witness: the run with a caught dashboard-assertion timeout
exits 0. -/
theorem c3_exit_zero_witness : exitCode (run_verification envDash 1 []) = 0 :=
  c3_exit_zero_amended envDash 1 [] rfl rfl
    (fun e h => by
      rw [show firstFlowFailure envDash flowOrder =
            some (⟨"Timeout 5000ms exceeded.", true, none⟩ : PyExc) from rfl] at h
      exact (Option.some.inj h) ▸ rfl)

/-- C4: on every exit path on which a browser was launched, the
browser is closed before the script terminates — either by the
`finally: browser.close()` or by the Playwright driver shutdown when
the `with sync_playwright()` block is left, which closes every browser
it launched. -/
theorem c4_browser_closed (env : Env) (shot : Nat) (fs : Fs)
    (_h : Event.launchBrowser ∈ (run_verification env shot fs).trace) :
    Event.closeBrowser ∈ (run_verification env shot fs).trace ∨
      Event.playwrightStop ∈ (run_verification env shot fs).trace :=
  Or.inr (playwrightStop_mem env shot fs)

/-- C4, witness: even when `browser.new_page` raises (so the `finally`
block is never entered), the launched browser is still closed by the
Playwright shutdown. -/
theorem c4_browser_closed_witness :
    Event.closeBrowser ∈ (run_verification envPageFail 0 []).trace ∨
      Event.playwrightStop ∈ (run_verification envPageFail 0 []).trace :=
  c4_browser_closed envPageFail 0 [] (by decide)

/-- C6: when login fails — navigation, both fills and the SIGN IN
click succeed but the dashboard text assertion raises a timeout error
(an `Exception`) — the error message is printed, the script exits with
status 0, and no screenshot file is produced (the file system is
unchanged). -/
theorem c6_login_failure (env : Env) (shot : Nat) (fs : Fs) (e : PyExc)
    (hl : env.launchFails = none) (hn : env.newPageFails = none)
    (hgoto : env.stepFails Step.goto = none)
    (hfu : env.stepFails Step.fillUsername = none)
    (hfp : env.stepFails Step.fillPassword = none)
    (hclick : env.stepFails Step.clickSignIn = none)
    (hdash : env.stepFails Step.expectDashboard = some e)
    (he : e.isException = true) :
    exitCode (run_verification env shot fs) = 0 ∧
    Event.printed ("An error occurred: " ++ e.msg) ∈ (run_verification env shot fs).trace ∧
    (run_verification env shot fs).fs = fs := by
  have hr : runFlow env shot flowOrder fs =
      ([stepEvent .goto, stepEvent .fillUsername, stepEvent .fillPassword,
        stepEvent .clickSignIn], fs, some e) := by
    simp [flowOrder, runFlow, hgoto, hfu, hfp, hclick, hdash]
  refine ⟨?_, ?_, ?_⟩ <;>
    · simp only [exitCode, run_verification, hl, hn, hr]
      simp [he]

/-- C6, witness: the wrong-credentials run prints the timeout message,
exits 0 and leaves the (initially empty) file system without a
screenshot. -/
theorem c6_login_failure_witness :
    exitCode (run_verification envDash 0 []) = 0 ∧
    Event.printed ("An error occurred: " ++ "Timeout 5000ms exceeded.") ∈
      (run_verification envDash 0 []).trace ∧
    (run_verification envDash 0 []).fs = [] :=
  c6_login_failure envDash 0 [] ⟨"Timeout 5000ms exceeded.", true, none⟩
    rfl rfl rfl rfl rfl rfl rfl rfl

/-- C7: on a second fully successful run, the screenshot write goes to
the same fixed path, replaces the first run's file without raising,
and touches no other path. -/
theorem c7_overwrite (env : Env) (shot1 shot2 : Nat) (fs : Fs)
    (hl : env.launchFails = none) (hn : env.newPageFails = none)
    (hs : ∀ s, env.stepFails s = none) :
    Fs.read (run_verification env shot1 fs).fs screenshotPath = some shot1 ∧
    Fs.read (run_verification env shot2 (run_verification env shot1 fs).fs).fs
      screenshotPath = some shot2 ∧
    (run_verification env shot2 (run_verification env shot1 fs).fs).outcome = none ∧
    ∀ q, q ≠ screenshotPath →
      Fs.read (run_verification env shot2 (run_verification env shot1 fs).fs).fs q =
        Fs.read fs q := by
  have hfs : ∀ (sh : Nat) (g : Fs), (run_verification env sh g).fs =
      Fs.write g screenshotPath sh := by
    intro sh g
    simp only [run_verification, hl, hn, runFlow_all_ok env sh g hs]
  have hout : ∀ (sh : Nat) (g : Fs), (run_verification env sh g).outcome = none := by
    intro sh g
    simp only [run_verification, hl, hn, runFlow_all_ok env sh g hs]
  refine ⟨?_, ?_, hout _ _, ?_⟩
  · rw [hfs]; exact Fs.read_write fs screenshotPath shot1
  · rw [hfs, hfs]; exact Fs.read_write _ screenshotPath shot2
  · intro q hq
    rw [hfs, hfs, Fs.read_write_ne _ _ _ _ hq, Fs.read_write_ne _ _ _ _ hq]

/-- C7, witness: two successive successful runs over a file system
holding one unrelated file: the second write overwrites the first
screenshot, raises nothing, and the unrelated file is untouched. -/
theorem c7_overwrite_witness :
    Fs.read (run_verification envOk 1 [("other.txt", 5)]).fs screenshotPath = some 1 ∧
    Fs.read (run_verification envOk 2
      (run_verification envOk 1 [("other.txt", 5)]).fs).fs screenshotPath = some 2 ∧
    (run_verification envOk 2
      (run_verification envOk 1 [("other.txt", 5)]).fs).outcome = none ∧
    Fs.read (run_verification envOk 2
        (run_verification envOk 1 [("other.txt", 5)]).fs).fs "other.txt" =
      Fs.read [("other.txt", 5)] "other.txt" := by
  have h := c7_overwrite envOk 1 2 [("other.txt", 5)] rfl rfl (fun _ => rfl)
  exact ⟨h.1, h.2.1, h.2.2.1, h.2.2.2 "other.txt" (by decide)⟩

/-- C8: the error boundary starts only after launch and page creation:
if `p.chromium.launch` raises, or it succeeds and `browser.new_page`
raises, the exception escapes `run_verification` uncaught, no error
message is printed, and the `finally` block's `browser.close()` is
never executed. -/
theorem c8_before_try (env : Env) (shot : Nat) (fs : Fs) (e : PyExc)
    (h : env.launchFails = some e ∨
         (env.launchFails = none ∧ env.newPageFails = some e)) :
    (run_verification env shot fs).outcome = some e ∧
    (∀ m, Event.printed m ∉ (run_verification env shot fs).trace) ∧
    Event.closeBrowser ∉ (run_verification env shot fs).trace := by
  rcases h with h | ⟨h1, h2⟩
  · simp [run_verification, h]
  · simp [run_verification, h1, h2]

/-- C8, witness: a launch failure propagates out of the script with
nothing printed and `browser.close()` never reached. -/
theorem c8_before_try_witness :
    (run_verification envLaunchFail 0 []).outcome =
      some ⟨"Executable does not exist", true, none⟩ ∧
    Event.printed "An error occurred: Executable does not exist" ∉
      (run_verification envLaunchFail 0 []).trace ∧
    Event.closeBrowser ∉ (run_verification envLaunchFail 0 []).trace := by
  have h := c8_before_try envLaunchFail 0 []
    ⟨"Executable does not exist", true, none⟩ (Or.inl rfl)
  exact ⟨h.1, h.2.1 _, h.2.2⟩

/-- C9: the screenshot is the last action inside the error boundary:
if the screenshot event occurs in a run's trace, then browser launch,
page creation, and every action of the flow (navigation, both fills,
the SIGN IN click, both text assertions, the link click, and the
screenshot call itself) succeeded. -/
theorem c9_screenshot_implies_success (env : Env) (shot : Nat) (fs : Fs)
    (h : Event.screenshotTaken screenshotPath ∈ (run_verification env shot fs).trace) :
    env.launchFails = none ∧ env.newPageFails = none ∧
      ∀ s, env.stepFails s = none := by
  cases hl : env.launchFails with
  | some e => simp [run_verification, hl] at h
  | none =>
  cases hn : env.newPageFails with
  | some e => simp [run_verification, hl, hn] at h
  | none =>
  refine ⟨rfl, rfl, ?_⟩
  apply screenshot_mem_flow env shot fs
  simp only [run_verification, hl, hn] at h
  cases hf : (runFlow env shot flowOrder fs).2.2 with
  | none =>
    rw [hf] at h
    simpa using h
  | some e =>
    rw [hf] at h
    by_cases he : e.isException = true <;> simp [he] at h <;> exact h

/-- C9, witness: in the all-success run the screenshot event occurs,
and the theorem recovers that every call succeeded. -/
theorem c9_screenshot_witness :
    envOk.launchFails = none ∧ envOk.newPageFails = none ∧
      ∀ s, envOk.stepFails s = none :=
  c9_screenshot_implies_success envOk 0 [] (by decide)

/-- C10, counterexample: the claim says a propagating `BaseException`
makes the process exit nonzero, naming `SystemExit` as an example —
but an uncaught `SystemExit` carrying code `None` (a bare
`sys.exit()`) raised during `page.goto` escapes `run_verification`
(nothing printed, the `finally` still closes the browser) and CPython
then exits with status 0. -/
theorem c10_exit_counterexample :
    (run_verification envSysExit 0 []).outcome = some ⟨"", false, some none⟩ ∧
    Event.closeBrowser ∈ (run_verification envSysExit 0 []).trace ∧
    exitCode (run_verification envSysExit 0 []) = 0 := by decide

/-- C10 (amended): the boundary catches only `Exception`: an exception
whose class does not derive from `Exception` (such as
`KeyboardInterrupt` or `SystemExit`) raised during the flow is not
caught — nothing is printed and it escapes `run_verification`, yet the
`finally` block still runs `browser.close()`; the process exit status
is then the escaping exception's own (1 for `KeyboardInterrupt` and
every other non-`SystemExit`, while a `SystemExit` exits with the code
it carries, which may be 0). -/
theorem c10_base_exception (env : Env) (shot : Nat) (fs : Fs) (e : PyExc)
    (hl : env.launchFails = none) (hn : env.newPageFails = none)
    (hf : firstFlowFailure env flowOrder = some e)
    (he : e.isException = false) :
    (run_verification env shot fs).outcome = some e ∧
    exitCode (run_verification env shot fs) = uncaughtExit e ∧
    (e.systemExit = none → exitCode (run_verification env shot fs) ≠ 0) ∧
    (∀ m, Event.printed m ∉ (run_verification env shot fs).trace) ∧
    Event.closeBrowser ∈ (run_verification env shot fs).trace := by
  have hr : (runFlow env shot flowOrder fs).2.2 = some e :=
    (runFlow_outcome env shot flowOrder fs).trans hf
  refine ⟨?_, ?_, ?_, ?_, ?_⟩
  · simp [run_verification, hl, hn, hr, he]
  · simp [exitCode, run_verification, hl, hn, hr, he]
  · intro hse
    simp [exitCode, uncaughtExit, run_verification, hl, hn, hr, he, hse]
  · intro m
    simp [run_verification, hl, hn, hr, he]
    exact runFlow_no_printed env shot flowOrder fs m
  · simp [run_verification, hl, hn, hr, he]

/-- C10, witness: a `KeyboardInterrupt` during `page.goto` propagates
with nothing printed, exit status 1 (nonzero, as it is not a
`SystemExit`), and the browser still closed by the `finally` block. -/
theorem c10_base_exception_witness :
    (run_verification envKI 0 []).outcome = some ⟨"KeyboardInterrupt", false, none⟩ ∧
    exitCode (run_verification envKI 0 []) =
      uncaughtExit ⟨"KeyboardInterrupt", false, none⟩ ∧
    exitCode (run_verification envKI 0 []) ≠ 0 ∧
    Event.printed "An error occurred: KeyboardInterrupt" ∉
      (run_verification envKI 0 []).trace ∧
    Event.closeBrowser ∈ (run_verification envKI 0 []).trace := by
  have h := c10_base_exception envKI 0 [] ⟨"KeyboardInterrupt", false, none⟩
    rfl rfl rfl rfl
  exact ⟨h.1, h.2.1, h.2.2.1 rfl, h.2.2.2.1 _, h.2.2.2.2⟩

end VerifyUsersPage
